import Mathlib

/-!
# Verification of the `ai-usage` core formatters

Shallow embedding of `dist/utils/formatters.js` (the current build of
`src/utils/formatters.ts`): the usage-window model, duration/window
formatters, weekly / five-hour / monthly pace calculators, pace colors and
the timestamp parsers.

Modelling conventions:
* JavaScript numbers are modelled as exact rationals `ℚ`; absolute
  timestamps (`Date.getTime()` values) as integers `ℤ` (epoch
  milliseconds).  `NaN` is modelled where it matters (parsers) by an
  `Option` layer.
* `Math.floor(x / y)` for an integer-valued `x` and positive integer `y`
  is `Int.fdiv`; the JavaScript `%` operator (remainder with the sign of
  the dividend) is `Int.tmod`.
* The wall clock (`Date.now()` / `new Date()`) is passed explicitly as a
  parameter `now`.
* `Number.prototype.toFixed(1)` rounds to the nearest multiple of 1/10,
  ties away from zero (ECMA-262: pick the larger candidate on the
  magnitude after the sign is split off).
-/

/-- One quota window, from `dist/types/index.d.ts` (`UsageWindow`).
`resetAt` is the epoch-millisecond value of the optional `Date`. -/
structure UsageWindow where
  used : ℚ
  limit : ℚ
  remaining : ℚ
  utilization : ℚ
  resetAt : Option ℤ
  resetInSeconds : Option ℚ
  minUtilization : Option ℚ
  maxUtilization : Option ℚ

/-- `q.toFixed(1)` of ECMA-262: sign split off, then the magnitude is
rendered with one decimal digit, rounding ties up (away from zero). -/
def jsToFixed1 (q : ℚ) : String :=
  if q < 0 then
    let n : ℤ := ⌊-q * 10 + 1 / 2⌋
    "-" ++ toString (n / 10) ++ "." ++ toString (n % 10)
  else
    let n : ℤ := ⌊q * 10 + 1 / 2⌋
    toString (n / 10) ++ "." ++ toString (n % 10)

/-- `formatDuration` from `dist/utils/formatters.js`. -/
def formatDuration (ms : ℚ) : String :=
  if ms ≤ 0 then "now"
  else
    let seconds : ℤ := ⌊ms / 1000⌋
    let minutes : ℤ := seconds.fdiv 60
    let hours : ℤ := minutes.fdiv 60
    let days : ℤ := hours.fdiv 24
    if 0 < days then
      toString days ++ "d " ++ toString (hours.tmod 24) ++ "h " ++
        toString (minutes.tmod 60) ++ "m"
    else if 0 < hours then
      toString hours ++ "h " ++ toString (minutes.tmod 60) ++ "m"
    else
      toString minutes ++ "m"

/-- `formatWindow` from `dist/utils/formatters.js`.  `now` is the
`Date.now()` snapshot taken when computing the reset delta. -/
def formatWindow (window : Option UsageWindow) (now : ℤ) : String :=
  match window with
  | none => "N/A"
  | some w =>
    let hasRange := w.minUtilization.isSome && w.maxUtilization.isSome
    let percentageText :=
      if hasRange then
        let mn := match w.minUtilization with
          | some v => jsToFixed1 v
          | none => "0"
        let mx := match w.maxUtilization with
          | some v => jsToFixed1 v
          | none => "0"
        if mn = mx then mn ++ "%" else mn ++ "%-" ++ mx ++ "%"
      else
        jsToFixed1 w.utilization ++ "%"
    let resetText := match w.resetAt with
      | some r => formatDuration ((r - now : ℤ) : ℚ)
      | none => "N/A"
    percentageText ++ " (" ++ resetText ++ ")"

/-- `calculatePace` from `dist/utils/formatters.js` (identical logic in
`src/utils/formatters.ts`).  The second argument is the unused
`_fiveHourWindow` parameter kept in the source signature. -/
def calculatePace (weeklyWindow _fiveHourWindow : Option UsageWindow)
    (now : ℤ) : String :=
  match weeklyWindow with
  | none => "N/A"
  | some w =>
    if w.limit = 0 then "N/A"
    else
      match w.resetAt with
      | none => jsToFixed1 (w.used / w.limit * 100) ++ "% used"
      | some resetAt =>
        let timeUntilReset : ℤ := resetAt - now
        let totalWeekMs : ℤ := 7 * 24 * 60 * 60 * 1000
        let timeElapsed : ℤ := totalWeekMs - timeUntilReset
        if timeElapsed ≤ 0 then "0% (just reset)"
        else
          let expectedUsage : ℚ := (timeElapsed : ℚ) / (totalWeekMs : ℚ) * w.limit
          let diff : ℚ := w.used - expectedUsage
          let diffPercentage : ℚ := diff / w.limit * 100
          if |diffPercentage| < 5 then "✓ on track"
          else if 0 < diff then "↑ " ++ jsToFixed1 diffPercentage ++ "% ahead"
          else "↓ " ++ jsToFixed1 |diffPercentage| ++ "% behind"

/-- `calculateFiveHourPace` from `dist/utils/formatters.js`. -/
def calculateFiveHourPace (fiveHourWindow : Option UsageWindow)
    (now : ℤ) : String :=
  match fiveHourWindow with
  | none => "N/A"
  | some w =>
    if w.limit = 0 then "N/A"
    else
      match w.resetAt with
      | none => jsToFixed1 (w.used / w.limit * 100) ++ "% used"
      | some resetAt =>
        let timeUntilReset : ℤ := resetAt - now
        let totalFiveHourMs : ℤ := 5 * 60 * 60 * 1000
        let timeElapsed : ℤ := totalFiveHourMs - timeUntilReset
        if timeElapsed ≤ 0 then "0% (just reset)"
        else
          let expectedUsage : ℚ := (timeElapsed : ℚ) / (totalFiveHourMs : ℚ) * w.limit
          let diff : ℚ := w.used - expectedUsage
          let diffPercentage : ℚ := diff / w.limit * 100
          if |diffPercentage| < 5 then "✓ on track"
          else if 0 < diff then "↑ " ++ jsToFixed1 diffPercentage ++ "% ahead"
          else "↓ " ++ jsToFixed1 |diffPercentage| ++ "% behind"

/-- The two views of `new Date()` that `calculateMonthlyPace` reads:
its epoch-millisecond value (`getTime`) and the epoch-millisecond value
of `new Date(getFullYear(), getMonth(), 1, 12, 0, 0)` — noon, local
time, on the first day of the current month.  The Gregorian/timezone
computation behind `startOfMonthMs` is a platform primitive, so it is
carried as data alongside `nowMs`. -/
structure MonthlyNow where
  nowMs : ℤ
  startOfMonthMs : ℤ

/-- `calculateMonthlyPace` from `dist/utils/formatters.js`. -/
def calculateMonthlyPace (monthlyWindow : Option UsageWindow)
    (now : MonthlyNow) : String :=
  match monthlyWindow with
  | none => "mcp: N/A"
  | some w =>
    if w.limit = 0 then "mcp: N/A"
    else
      let usagePercentage := w.utilization
      match w.resetAt with
      | none => "mcp: " ++ jsToFixed1 usagePercentage ++ "%"
      | some resetAtMs =>
        let totalMonthMs : ℤ := resetAtMs - now.startOfMonthMs
        let elapsedMs : ℤ := now.nowMs - now.startOfMonthMs
        let elapsedPercentage : ℚ := (elapsedMs : ℚ) / (totalMonthMs : ℚ) * 100
        let diff : ℚ := usagePercentage - elapsedPercentage
        if |diff| < 5 then "mcp: ✓ on track"
        else if diff ≤ 0 then "mcp: ↓ behind"
        else "mcp: ↑ ahead"

/-- The monthly pace the specification describes: the weekly algorithm of
`calculatePace` with `cycleLengthMs = 30` days, `timeElapsed` additionally
clamped into `[0, cycleLengthMs]` before the ratio, and every output
prefixed with `"mcp: "`.  Written from the spec's words, to be compared
against `calculateMonthlyPace`. -/
def specMonthlyPace (monthlyWindow : Option UsageWindow) (now : ℤ) : String :=
  match monthlyWindow with
  | none => "mcp: N/A"
  | some w =>
    if w.limit = 0 then "mcp: N/A"
    else
      match w.resetAt with
      | none => "mcp: " ++ jsToFixed1 (w.used / w.limit * 100) ++ "% used"
      | some resetAt =>
        let cycleLengthMs : ℤ := 30 * 24 * 60 * 60 * 1000
        let timeElapsed : ℤ := cycleLengthMs - (resetAt - now)
        if timeElapsed ≤ 0 then "mcp: 0% (just reset)"
        else
          let te : ℤ := min (max timeElapsed 0) cycleLengthMs
          let expectedUsage : ℚ := (te : ℚ) / (cycleLengthMs : ℚ) * w.limit
          let diff : ℚ := w.used - expectedUsage
          let diffPercentage : ℚ := diff / w.limit * 100
          if |diffPercentage| < 5 then "mcp: ✓ on track"
          else if 0 < diff then "mcp: ↑ " ++ jsToFixed1 diffPercentage ++ "% ahead"
          else "mcp: ↓ " ++ jsToFixed1 |diffPercentage| ++ "% behind"

/-- `pat` occurs at the head of `s` (character lists). -/
def leadsWith : List Char → List Char → Bool
  | _, [] => true
  | [], _ :: _ => false
  | c :: cs, p :: ps => (c == p) && leadsWith cs ps

/-- `pat` occurs somewhere in `s` (character lists). -/
def occursIn (pat : List Char) : List Char → Bool
  | [] => leadsWith [] pat
  | c :: cs => leadsWith (c :: cs) pat || occursIn pat cs

/-- `String.prototype.includes`: substring containment. -/
def jsIncludes (s sub : String) : Bool :=
  occursIn sub.data s.data

/-- `getPaceColor` from `dist/utils/formatters.js`. -/
def getPaceColor (pace : String) : String :=
  if (pace == "N/A") || jsIncludes pace "N/A" then "gray"
  else if jsIncludes pace "✓" || jsIncludes pace "on track" then "green"
  else if jsIncludes pace "↑" || jsIncludes pace "ahead" then "red"
  else if jsIncludes pace "↓" || jsIncludes pace "behind" then "green"
  else "white"

/-- The result of the JavaScript `Date` constructor: a `Date` object
whose `getTime()` is either a finite epoch-millisecond value or `NaN`
(an "Invalid Date"), modelled as `Option ℤ` with `none` for `NaN`. -/
structure JSDate where
  timeMs : Option ℤ

/-- A JavaScript number argument that may be `NaN` (`none`). -/
abbrev JSNum := Option ℚ

/-- `parseISO8601` from `dist/utils/formatters.js`.  The platform
primitive `new Date(string)` is passed as `newDate`; it may throw
(`Except.error`, caught by the source's `try`/`catch`) or produce a
`JSDate` whose time is `NaN` for unparseable input. -/
def parseISO8601 (newDate : String → Except String JSDate)
    (dateStr : String) : Option ℤ :=
  match newDate dateStr with
  | Except.error _ => none
  | Except.ok date =>
    match date.timeMs with
    | none => none
    | some t => some t

/-- `parseEpochMs` from `dist/utils/formatters.js`.  The platform
primitive `new Date(number)` is passed as `newDate`. -/
def parseEpochMs (newDate : JSNum → Except String JSDate)
    (timestamp : JSNum) : Option ℤ :=
  match newDate timestamp with
  | Except.error _ => none
  | Except.ok date =>
    match date.timeMs with
    | none => none
    | some t => some t

attribute [local semireducible] Rat.add Rat.mul Rat.inv Rat.sub

/-- C9: `calculatePace` never reads its five-hour-window argument, so its
result is the same for any two values of it. -/
theorem calculatePace_ignores_fiveHourWindow
    (w f1 f2 : Option UsageWindow) (now : ℤ) :
    calculatePace w f1 now = calculatePace w f2 now := rfl

/-- C3 counterexample: with `resetAt` absent the static readout is computed
from `used / limit`, not from the `utilization` field.  Here
`utilization = 99` but `used = 50, limit = 200`, and the output is
`"25.0% used"`, not `"99.0% used"`. -/
theorem calculatePace_static_readout_counterexample :
    calculatePace (some ⟨50, 200, 150, 99, none, none, none, none⟩) none 0
        = "25.0% used" ∧
      calculatePace (some ⟨50, 200, 150, 99, none, none, none, none⟩) none 0
        ≠ "99.0% used" := by
  constructor
  · decide
  · decide

/-- C3 amended: with `limit ≠ 0` and `resetAt` absent, `calculatePace`
returns `"{p}% used"` where `p` is `(used / limit) * 100` formatted to one
decimal place — the `utilization` field plays no role in this branch. -/
theorem calculatePace_static_readout (w : UsageWindow)
    (f : Option UsageWindow) (now : ℤ)
    (hl : w.limit ≠ 0) (hr : w.resetAt = none) :
    calculatePace (some w) f now = jsToFixed1 (w.used / w.limit * 100) ++ "% used" := by
  simp only [calculatePace, hr, if_neg hl]

theorem calculatePace_static_readout_witness :
    (200 : ℚ) ≠ 0 ∧
      calculatePace (some ⟨50, 200, 150, 99, none, none, none, none⟩) none 0
        = "25.0% used" :=
  ⟨by decide,
    (calculatePace_static_readout ⟨50, 200, 150, 99, none, none, none, none⟩
      none 0 (by decide) rfl).trans (by decide)⟩

/-- C1 counterexample: `calculateMonthlyPace` is not the weekly algorithm
with a 30-day cycle, clamping and an `"mcp: "` prefix.  Already in the
no-`resetAt` branch the two differ: the code shows the `utilization` field
as `"mcp: 25.0%"`, while the spec's algorithm shows
`used / limit` with a `"% used"` suffix, `"mcp: 25.0% used"`. -/
theorem calculateMonthlyPace_not_spec30 :
    calculateMonthlyPace (some ⟨50, 200, 150, 25, none, none, none, none⟩)
        ⟨0, 0⟩ = "mcp: 25.0%" ∧
      specMonthlyPace (some ⟨50, 200, 150, 25, none, none, none, none⟩) 0
        = "mcp: 25.0% used" ∧
      calculateMonthlyPace (some ⟨50, 200, 150, 25, none, none, none, none⟩)
          ⟨0, 0⟩ ≠
        specMonthlyPace (some ⟨50, 200, 150, 25, none, none, none, none⟩) 0 :=
  ⟨by decide, by decide, by decide⟩

/-- C1 amended: every `calculateMonthlyPace` output carries the `"mcp: "`
prefix, but the algorithm differs from the weekly one: with `resetAt`
absent it renders the `utilization` field (no `" used"` suffix), and with
`resetAt` present it compares `utilization` against the percentage of time
elapsed between the start of the current month (noon on day 1) and `now`,
the cycle length being `resetAt` minus that month start, with no clamping
and no percentage in the ahead/behind outputs (`diff = 0` counts as
behind). -/
theorem calculateMonthlyPace_amended (w : Option UsageWindow)
    (now : MonthlyNow) :
    (∃ s, calculateMonthlyPace w now = "mcp: " ++ s) ∧
    (∀ u, w = some u → u.limit ≠ 0 → u.resetAt = none →
      calculateMonthlyPace w now = "mcp: " ++ jsToFixed1 u.utilization ++ "%") ∧
    (∀ u r ep diff, w = some u → u.limit ≠ 0 → u.resetAt = some r →
      ep = ((now.nowMs - now.startOfMonthMs : ℤ) : ℚ) /
          ((r - now.startOfMonthMs : ℤ) : ℚ) * 100 →
      diff = u.utilization - ep →
      ((|diff| < 5 → calculateMonthlyPace w now = "mcp: ✓ on track") ∧
        (5 ≤ |diff| → diff ≤ 0 → calculateMonthlyPace w now = "mcp: ↓ behind") ∧
        (5 ≤ |diff| → 0 < diff → calculateMonthlyPace w now = "mcp: ↑ ahead"))) := by
  refine ⟨?_, ?_, ?_⟩
  · cases w with
    | none => exact ⟨"N/A", rfl⟩
    | some u =>
      by_cases hl : u.limit = 0
      · exact ⟨"N/A", by simp only [calculateMonthlyPace, if_pos hl]; decide⟩
      · cases hr : u.resetAt with
        | none =>
          exact ⟨jsToFixed1 u.utilization ++ "%",
            by simp only [calculateMonthlyPace, if_neg hl, hr,
              String.append_assoc]⟩
        | some r =>
          simp only [calculateMonthlyPace, if_neg hl, hr]
          split_ifs
          · exact ⟨"✓ on track", rfl⟩
          · exact ⟨"↓ behind", rfl⟩
          · exact ⟨"↑ ahead", rfl⟩
  · intro u hw hl hr
    subst hw
    simp only [calculateMonthlyPace, hr, if_neg hl, String.append_assoc]
  · intro u r ep diff hw hl hr hep hdiff
    subst hw
    subst hep
    subst hdiff
    simp only [calculateMonthlyPace, hr, if_neg hl]
    refine ⟨?_, ?_, ?_⟩
    · intro h
      rw [if_pos h]
    · intro h5 hle
      rw [if_neg (not_lt.mpr h5), if_pos hle]
    · intro h5 hpos
      rw [if_neg (not_lt.mpr h5), if_neg (not_le.mpr hpos)]

theorem calculateMonthlyPace_amended_witness :
    (100 : ℚ) ≠ 0 ∧
      calculateMonthlyPace (some ⟨50, 100, 50, 50, none, none, none, none⟩)
        ⟨0, 0⟩ = "mcp: 50.0%" :=
  ⟨by decide,
    ((calculateMonthlyPace_amended
          (some ⟨50, 100, 50, 50, none, none, none, none⟩) ⟨0, 0⟩).2.1
        ⟨50, 100, 50, 50, none, none, none, none⟩ rfl (by decide) rfl).trans
      (by decide)⟩

/-- C6 counterexample: `getPaceColor` does NOT give `"N/A"` the same
neutral color as other unrecognized strings — `"N/A"` is mapped to
`"gray"` while an unrecognized string is mapped to `"white"`. -/
theorem getPaceColor_NA_counterexample :
    getPaceColor "N/A" = "gray" ∧ getPaceColor "unrecognized" = "white" ∧
      getPaceColor "N/A" ≠ getPaceColor "unrecognized" :=
  ⟨by decide, by decide, by decide⟩

/-- C6 amended: `getPaceColor` first maps any string equal to or containing
`"N/A"` to `"gray"`; otherwise a string containing `"✓"` or `"on track"`
to the favorable `"green"`, then `"↑"` or `"ahead"` to the warning
`"red"`, then `"↓"` or `"behind"` to the favorable `"green"`, and anything
else to the neutral `"white"` — so `"N/A"` gets `"gray"`, distinct from
the `"white"` of other unrecognized strings. -/
theorem getPaceColor_amended (p : String) :
    ((p = "N/A" ∨ jsIncludes p "N/A" = true) → getPaceColor p = "gray") ∧
    (p ≠ "N/A" → jsIncludes p "N/A" = false →
      ((jsIncludes p "✓" = true ∨ jsIncludes p "on track" = true) →
        getPaceColor p = "green") ∧
      (jsIncludes p "✓" = false → jsIncludes p "on track" = false →
        ((jsIncludes p "↑" = true ∨ jsIncludes p "ahead" = true) →
          getPaceColor p = "red") ∧
        (jsIncludes p "↑" = false → jsIncludes p "ahead" = false →
          ((jsIncludes p "↓" = true ∨ jsIncludes p "behind" = true) →
            getPaceColor p = "green") ∧
          (jsIncludes p "↓" = false → jsIncludes p "behind" = false →
            getPaceColor p = "white")))) := by
  constructor
  · intro h
    have hb : ((p == "N/A") || jsIncludes p "N/A") = true := by
      rcases h with h | h
      · simp [h]
      · simp [h]
    simp only [getPaceColor, hb, if_true]
  · intro hne hna
    have hb : ¬ (((p == "N/A") || jsIncludes p "N/A") = true) := by
      simp [hna, hne]
    constructor
    · intro h
      have hb2 : (jsIncludes p "✓" || jsIncludes p "on track") = true := by
        rcases h with h | h
        · simp [h]
        · simp [h]
      simp only [getPaceColor, if_neg hb, hb2, if_true]
    · intro hc ht
      have hb2 : ¬ ((jsIncludes p "✓" || jsIncludes p "on track") = true) := by
        simp [hc, ht]
      constructor
      · intro h
        have hb3 : (jsIncludes p "↑" || jsIncludes p "ahead") = true := by
          rcases h with h | h
          · simp [h]
          · simp [h]
        simp only [getPaceColor, if_neg hb, if_neg hb2, hb3, if_true]
      · intro hu ha
        have hb3 : ¬ ((jsIncludes p "↑" || jsIncludes p "ahead") = true) := by
          simp [hu, ha]
        constructor
        · intro h
          have hb4 : (jsIncludes p "↓" || jsIncludes p "behind") = true := by
            rcases h with h | h
            · simp [h]
            · simp [h]
          simp only [getPaceColor, if_neg hb, if_neg hb2, if_neg hb3, hb4,
            if_true]
        · intro hd hbh
          have hb4 : ¬ ((jsIncludes p "↓" || jsIncludes p "behind") = true) := by
            simp [hd, hbh]
          simp only [getPaceColor, if_neg hb, if_neg hb2, if_neg hb3,
            if_neg hb4]

theorem getPaceColor_amended_witness :
    getPaceColor "N/A" = "gray" :=
  (getPaceColor_amended "N/A").1 (Or.inl rfl)

/-- C7: the timestamp parsers are total and degrade to `none` on invalid
input: if the `new Date` platform primitive throws (caught by the source)
or yields an invalid (`NaN`-time) date, the result is `none`; otherwise it
is the parsed timestamp.  No exception escapes in any case. -/
theorem parsers_never_throw :
    (∀ (newDate : String → Except String JSDate) (s e : String),
        newDate s = Except.error e → parseISO8601 newDate s = none) ∧
    (∀ (newDate : String → Except String JSDate) (s : String),
        newDate s = Except.ok ⟨none⟩ → parseISO8601 newDate s = none) ∧
    (∀ (newDate : String → Except String JSDate) (s : String) (t : ℤ),
        newDate s = Except.ok ⟨some t⟩ → parseISO8601 newDate s = some t) ∧
    (∀ (newDate : JSNum → Except String JSDate) (x : JSNum) (e : String),
        newDate x = Except.error e → parseEpochMs newDate x = none) ∧
    (∀ (newDate : JSNum → Except String JSDate) (x : JSNum),
        newDate x = Except.ok ⟨none⟩ → parseEpochMs newDate x = none) ∧
    (∀ (newDate : JSNum → Except String JSDate) (x : JSNum) (t : ℤ),
        newDate x = Except.ok ⟨some t⟩ → parseEpochMs newDate x = some t) :=
  ⟨fun _ _ _ h => by simp [parseISO8601, h],
    fun _ _ h => by simp [parseISO8601, h],
    fun _ _ _ h => by simp [parseISO8601, h],
    fun _ _ _ h => by simp [parseEpochMs, h],
    fun _ _ h => by simp [parseEpochMs, h],
    fun _ _ _ h => by simp [parseEpochMs, h]⟩

theorem parsers_never_throw_witness :
    parseISO8601 (fun _ => Except.ok ⟨none⟩) "not-a-date" = none ∧
      parseEpochMs (fun _ => Except.ok ⟨none⟩) none = none :=
  ⟨parsers_never_throw.2.1 (fun _ => Except.ok ⟨none⟩) "not-a-date" rfl,
    parsers_never_throw.2.2.2.2.1 (fun _ => Except.ok ⟨none⟩) none rfl⟩

/-- C8: every core function is a total function and handles the degenerate
inputs (absent window, zero limit, non-positive delta, absent `resetAt`)
with a defined fallback result: `"now"`, `"N/A"`, `"mcp: N/A"`; the color
classifier always yields one of its four colors; the parsers always yield
an optional timestamp.  (In this embedding the functions are total by
construction; the substance is the defined fallback on each degenerate
class.) -/
theorem core_functions_total :
    (∀ ms : ℚ, ms ≤ 0 → formatDuration ms = "now") ∧
    (∀ now, formatWindow none now = "N/A") ∧
    (∀ f now, calculatePace none f now = "N/A") ∧
    (∀ w f now, w.limit = 0 → calculatePace (some w) f now = "N/A") ∧
    (∀ now, calculateFiveHourPace none now = "N/A") ∧
    (∀ w now, w.limit = 0 → calculateFiveHourPace (some w) now = "N/A") ∧
    (∀ now, calculateMonthlyPace none now = "mcp: N/A") ∧
    (∀ w now, w.limit = 0 → calculateMonthlyPace (some w) now = "mcp: N/A") ∧
    (∀ p, getPaceColor p = "gray" ∨ getPaceColor p = "green" ∨
      getPaceColor p = "red" ∨ getPaceColor p = "white") ∧
    (∀ nd s, parseISO8601 nd s = none ∨ ∃ t, parseISO8601 nd s = some t) ∧
    (∀ nd x, parseEpochMs nd x = none ∨ ∃ t, parseEpochMs nd x = some t) := by
  refine ⟨?_, ?_, ?_, ?_, ?_, ?_, ?_, ?_, ?_, ?_, ?_⟩
  · intro ms h
    simp only [formatDuration, if_pos h]
  · intro now; rfl
  · intro f now; rfl
  · intro w f now h
    simp only [calculatePace, if_pos h]
  · intro now; rfl
  · intro w now h
    simp only [calculateFiveHourPace, if_pos h]
  · intro now; rfl
  · intro w now h
    simp only [calculateMonthlyPace, if_pos h]
  · intro p
    unfold getPaceColor
    split_ifs <;> simp
  · intro nd s
    rcases hnd : nd s with e | d
    · left; simp [parseISO8601, hnd]
    · rcases hd : d.timeMs with _ | t
      · left; simp [parseISO8601, hnd, hd]
      · right; exact ⟨t, by simp [parseISO8601, hnd, hd]⟩
  · intro nd x
    rcases hnd : nd x with e | d
    · left; simp [parseEpochMs, hnd]
    · rcases hd : d.timeMs with _ | t
      · left; simp [parseEpochMs, hnd, hd]
      · right; exact ⟨t, by simp [parseEpochMs, hnd, hd]⟩

theorem core_functions_total_witness :
    formatDuration (-1) = "now" ∧
      calculatePace (some ⟨10, 0, 0, 0, none, none, none, none⟩) none 0
        = "N/A" ∧
      calculateFiveHourPace (some ⟨10, 0, 0, 0, none, none, none, none⟩) 0
        = "N/A" ∧
      calculateMonthlyPace (some ⟨10, 0, 0, 0, none, none, none, none⟩)
        ⟨0, 0⟩ = "mcp: N/A" :=
  ⟨core_functions_total.1 (-1) (by decide),
    core_functions_total.2.2.2.1 ⟨10, 0, 0, 0, none, none, none, none⟩ none 0
      rfl,
    core_functions_total.2.2.2.2.2.1 ⟨10, 0, 0, 0, none, none, none, none⟩ 0
      rfl,
    core_functions_total.2.2.2.2.2.2.2.1 ⟨10, 0, 0, 0, none, none, none, none⟩
      ⟨0, 0⟩ rfl⟩

/-- C4: `formatWindow` of an absent window is `"N/A"`; with both
`minUtilization` and `maxUtilization` present the percentage text is each
bound to one decimal place, collapsed to a single `"{p}%"` when the two
rounded strings agree and a range `"{min}%-{max}%"` otherwise; with at
least one bound absent it is `"{utilization.toFixed(1)}%"`; the final
result is always `"{percentageText} ({resetText})"`, `resetText` being
`formatDuration(resetAt - now)` when `resetAt` is present and `"N/A"`
otherwise. -/
theorem formatWindow_spec :
    (∀ now, formatWindow none now = "N/A") ∧
    (∀ w now mn mx, w.minUtilization = some mn → w.maxUtilization = some mx →
      formatWindow (some w) now =
        (if jsToFixed1 mn = jsToFixed1 mx then jsToFixed1 mn ++ "%"
          else jsToFixed1 mn ++ "%-" ++ jsToFixed1 mx ++ "%") ++ " (" ++
          (match w.resetAt with
            | some r => formatDuration ((r - now : ℤ) : ℚ)
            | none => "N/A") ++ ")") ∧
    (∀ w now, w.minUtilization = none ∨ w.maxUtilization = none →
      formatWindow (some w) now =
        jsToFixed1 w.utilization ++ "%" ++ " (" ++
          (match w.resetAt with
            | some r => formatDuration ((r - now : ℤ) : ℚ)
            | none => "N/A") ++ ")") := by
  refine ⟨fun now => rfl, ?_, ?_⟩
  · intro w now mn mx h1 h2
    simp only [formatWindow, h1, h2, Option.isSome_some, Bool.and_self,
      if_true]
  · intro w now h
    rcases h with h | h
    · simp only [formatWindow, h, Option.isSome_none, Bool.false_and,
        Bool.false_eq_true, if_false]
    · simp only [formatWindow, h, Option.isSome_none, Bool.and_false,
        Bool.false_eq_true, if_false]

theorem formatWindow_spec_witness :
    formatWindow (some ⟨0, 0, 0, 10, none, none, some 10, some 10⟩) 0
      = "10.0% (N/A)" :=
  (formatWindow_spec.2.1 ⟨0, 0, 0, 10, none, none, some 10, some 10⟩ 0 10 10
    rfl rfl).trans (by decide)

/-- C10: the range display needs both bounds — with exactly one of
`minUtilization` / `maxUtilization` present, the percentage part falls
back to `"{utilization.toFixed(1)}%"`, and the whole output equals that of
the same window with neither bound present. -/
theorem formatWindow_single_bound (w : UsageWindow) (now : ℤ)
    (h : (w.minUtilization.isSome = true ∧ w.maxUtilization = none) ∨
      (w.minUtilization = none ∧ w.maxUtilization.isSome = true)) :
    formatWindow (some w) now =
        jsToFixed1 w.utilization ++ "%" ++ " (" ++
          (match w.resetAt with
            | some r => formatDuration ((r - now : ℤ) : ℚ)
            | none => "N/A") ++ ")" ∧
      formatWindow (some w) now =
        formatWindow
          (some ⟨w.used, w.limit, w.remaining, w.utilization, w.resetAt,
            w.resetInSeconds, none, none⟩) now := by
  rcases h with ⟨_, h2⟩ | ⟨h1, _⟩
  · constructor
    · simp only [formatWindow, h2, Option.isSome_none, Bool.and_false,
        Bool.false_eq_true, if_false]
    · simp only [formatWindow, h2, Option.isSome_none, Bool.and_false,
        Bool.false_and, Bool.false_eq_true, if_false]
  · constructor
    · simp only [formatWindow, h1, Option.isSome_none, Bool.false_and,
        Bool.false_eq_true, if_false]
    · simp only [formatWindow, h1, Option.isSome_none, Bool.false_and,
        Bool.false_eq_true, if_false]

theorem formatWindow_single_bound_witness :
    formatWindow (some ⟨0, 0, 0, 12, none, none, some 5, none⟩) 0
        = "12.0% (N/A)" ∧
      formatWindow (some ⟨0, 0, 0, 12, none, none, some 5, none⟩) 0
        = formatWindow (some ⟨0, 0, 0, 12, none, none, none, none⟩) 0 :=
  ⟨((formatWindow_single_bound ⟨0, 0, 0, 12, none, none, some 5, none⟩ 0
        (Or.inl ⟨rfl, rfl⟩)).1).trans (by decide),
    (formatWindow_single_bound ⟨0, 0, 0, 12, none, none, some 5, none⟩ 0
        (Or.inl ⟨rfl, rfl⟩)).2⟩

theorem append_head_ne {a b : String} {c d : Char} {as bs : List Char}
    (ha : a.data = c :: as) (hb : b.data = d :: bs) (hcd : c ≠ d)
    (x : String) : (a ++ x) ≠ b := by
  intro h
  have h1 := congrArg String.data h
  rw [String.data_append, ha, hb, List.cons_append] at h1
  injection h1 with h2 _
  exact hcd h2

theorem up_ne_onTrack (x : String) : ("↑ " ++ x) ≠ "✓ on track" :=
  append_head_ne rfl rfl (by decide) x

theorem down_ne_onTrack (x : String) : ("↓ " ++ x) ≠ "✓ on track" :=
  append_head_ne rfl rfl (by decide) x

/-- C2: with `limit ≠ 0` and `resetAt` present, `calculatePace` computes
`timeElapsed = 7 days - (resetAt - now)`; if `timeElapsed ≤ 0` it returns
`"0% (just reset)"`; otherwise, with
`diffPercentage = ((used - (timeElapsed / 7 days) * limit) / limit) * 100`,
it returns `"✓ on track"` exactly when `|diffPercentage| < 5` (so a value
of exactly 5 is not on track), `"↑ {dp.toFixed(1)}% ahead"` when the
difference `used - expected` is positive, and
`"↓ {|dp|.toFixed(1)}% behind"` otherwise. -/
theorem calculatePace_weekly_spec (w : UsageWindow) (f : Option UsageWindow)
    (now r te : ℤ) (dp : ℚ) (hl : w.limit ≠ 0) (hr : w.resetAt = some r)
    (hte : te = 7 * 24 * 60 * 60 * 1000 - (r - now))
    (hdp : dp = (w.used -
      (te : ℚ) / ((7 * 24 * 60 * 60 * 1000 : ℤ) : ℚ) * w.limit) /
        w.limit * 100) :
    (te ≤ 0 → calculatePace (some w) f now = "0% (just reset)") ∧
    (0 < te →
      ((calculatePace (some w) f now = "✓ on track" ↔ |dp| < 5) ∧
        (5 ≤ |dp| →
          0 < w.used -
            (te : ℚ) / ((7 * 24 * 60 * 60 * 1000 : ℤ) : ℚ) * w.limit →
          calculatePace (some w) f now =
            "↑ " ++ jsToFixed1 dp ++ "% ahead") ∧
        (5 ≤ |dp| →
          w.used -
            (te : ℚ) / ((7 * 24 * 60 * 60 * 1000 : ℤ) : ℚ) * w.limit ≤ 0 →
          calculatePace (some w) f now =
            "↓ " ++ jsToFixed1 |dp| ++ "% behind"))) := by
  subst hte
  subst hdp
  simp only [calculatePace, hr, if_neg hl]
  constructor
  · intro h
    rw [if_pos h]
  · intro h
    rw [if_neg (not_le.mpr h)]
    by_cases h5 : |(w.used -
        ((7 * 24 * 60 * 60 * 1000 - (r - now) : ℤ) : ℚ) /
          ((7 * 24 * 60 * 60 * 1000 : ℤ) : ℚ) * w.limit) / w.limit * 100| < 5
    · rw [if_pos h5]
      exact ⟨⟨fun _ => h5, fun _ => rfl⟩, fun hge _ => absurd h5 (not_lt.mpr hge),
        fun hge _ => absurd h5 (not_lt.mpr hge)⟩
    · rw [if_neg h5]
      by_cases hd : 0 < w.used -
          ((7 * 24 * 60 * 60 * 1000 - (r - now) : ℤ) : ℚ) /
            ((7 * 24 * 60 * 60 * 1000 : ℤ) : ℚ) * w.limit
      · rw [if_pos hd]
        exact ⟨⟨fun heq => absurd heq (up_ne_onTrack _),
            fun hlt => absurd hlt h5⟩,
          fun _ _ => rfl, fun _ hle => absurd hd (not_lt.mpr hle)⟩
      · rw [if_neg hd]
        exact ⟨⟨fun heq => absurd heq (down_ne_onTrack _),
            fun hlt => absurd hlt h5⟩,
          fun _ hgt => absurd hgt hd, fun _ _ => rfl⟩

theorem calculatePace_weekly_spec_witness :
    (100 : ℚ) ≠ 0 ∧ (0 : ℤ) < 86400000 ∧ (5 : ℚ) ≤ |(600 / 7 : ℚ)| ∧
      calculatePace
        (some ⟨100, 100, 0, 100, some 518400000, none, none, none⟩) none 0
        = "↑ 85.7% ahead" :=
  ⟨by decide, by decide, by decide,
    (((calculatePace_weekly_spec
            ⟨100, 100, 0, 100, some 518400000, none, none, none⟩ none 0
            518400000 86400000 (600 / 7) (by decide) rfl (by decide)
            (by decide)).2
          (by decide)).2.1 (by decide) (by decide)).trans
      (by decide)⟩

theorem fdiv_ofNat60 (m : ℕ) : ((m : ℤ)).fdiv 60 = ((m / 60 : ℕ) : ℤ) := by
  cases m with
  | zero => rfl
  | succ k => rfl

theorem fdiv_ofNat24 (m : ℕ) : ((m : ℤ)).fdiv 24 = ((m / 24 : ℕ) : ℤ) := by
  cases m with
  | zero => rfl
  | succ k => rfl

theorem tmod_ofNat24 (m : ℕ) :
    Int.tmod (m : ℤ) 24 = ((m % 24 : ℕ) : ℤ) := rfl

theorem tmod_ofNat60 (m : ℕ) :
    Int.tmod (m : ℤ) 60 = ((m % 60 : ℕ) : ℤ) := rfl

theorem emod_ofNat24 (m : ℕ) : (m : ℤ) % 24 = ((m % 24 : ℕ) : ℤ) := rfl

theorem emod_ofNat60 (m : ℕ) : (m : ℤ) % 60 = ((m % 60 : ℕ) : ℤ) := rfl

/-- C5: `formatDuration` returns `"now"` for every non-positive delta; for
a positive delta, with total minutes, hours and days obtained by integer
floor division of the millisecond delta (seconds precision discarded), it
returns `"{d}d {h % 24}h {m % 60}m"` when `d > 0` (hours and minutes as
remainders within the day and hour, not totals), `"{h}h {m % 60}m"` when
`d = 0 < h`, and `"{m}m"` otherwise (possibly `"0m"`). -/
theorem formatDuration_spec (ms : ℚ) :
    (ms ≤ 0 → formatDuration ms = "now") ∧
    (0 < ms →
      formatDuration ms =
        if 0 < ⌊ms / 86400000⌋ then
          toString ⌊ms / 86400000⌋ ++ "d " ++
            toString (⌊ms / 3600000⌋ % 24) ++ "h " ++
            toString (⌊ms / 60000⌋ % 60) ++ "m"
        else if 0 < ⌊ms / 3600000⌋ then
          toString ⌊ms / 3600000⌋ ++ "h " ++
            toString (⌊ms / 60000⌋ % 60) ++ "m"
        else toString ⌊ms / 60000⌋ ++ "m") := by
  constructor
  · intro h
    simp only [formatDuration, if_pos h]
  · intro h
    have h0 : (0 : ℚ) ≤ ms := le_of_lt h
    have e1 : ⌊ms / 1000⌋ = ((⌊ms⌋₊ / 1000 : ℕ) : ℤ) := by
      rw [← Int.natCast_floor_eq_floor (div_nonneg h0 (by norm_num)),
        Nat.floor_div_ofNat]
    have e2 : ⌊ms / 60000⌋ = ((⌊ms⌋₊ / 60000 : ℕ) : ℤ) := by
      rw [← Int.natCast_floor_eq_floor (div_nonneg h0 (by norm_num)),
        Nat.floor_div_ofNat]
    have e3 : ⌊ms / 3600000⌋ = ((⌊ms⌋₊ / 3600000 : ℕ) : ℤ) := by
      rw [← Int.natCast_floor_eq_floor (div_nonneg h0 (by norm_num)),
        Nat.floor_div_ofNat]
    have e4 : ⌊ms / 86400000⌋ = ((⌊ms⌋₊ / 86400000 : ℕ) : ℤ) := by
      rw [← Int.natCast_floor_eq_floor (div_nonneg h0 (by norm_num)),
        Nat.floor_div_ofNat]
    simp only [formatDuration, if_neg (not_le.mpr h), e1, e2, e3, e4,
      fdiv_ofNat60, fdiv_ofNat24, tmod_ofNat24, tmod_ofNat60, emod_ofNat24,
      emod_ofNat60, Nat.div_div_eq_div_mul]

theorem formatDuration_spec_witness :
    (0 : ℚ) < 2 * 86400000 + 3 * 3600000 + 4 * 60000 ∧
      formatDuration (2 * 86400000 + 3 * 3600000 + 4 * 60000) = "2d 3h 4m" :=
  ⟨by decide,
    ((formatDuration_spec (2 * 86400000 + 3 * 3600000 + 4 * 60000)).2
        (by decide)).trans (by decide)⟩

